import Mathlib

/-
Verification of the MS SQL Server datasource integration
(packages/server/src/integrations/microsoftSqlServer.ts).

The embedding models JavaScript runtime values (JSVal), thrown values
(JSError), the mssql driver as an oracle (Client), and translates the
integration functions into pure Lean definitions over those types.
Helpers imported from ./utils and the base Sql class are not part of the
sampled sources; they are modelled from the specification and marked as
such in their doc comments.
-/

/-- Model of a JavaScript runtime value as delivered by the mssql driver
for a single result-set cell. -/
inductive JSVal where
  | str (s : String)
  | num (n : Int)
  | boolean (b : Bool)
  | null
  | undefined
deriving DecidableEq

/-- Decimal digit characters; used to render a JavaScript number. -/
def digitChars : List Char := [Char.ofNat 48, Char.ofNat 49, Char.ofNat 50,
  Char.ofNat 51, Char.ofNat 52, Char.ofNat 53, Char.ofNat 54, Char.ofNat 55,
  Char.ofNat 56, Char.ofNat 57]

/-- Digits of a natural number, most significant first; fuel-driven recursion. -/
def natDigits : Nat → Nat → List Char
  | 0, _ => []
  | fuel + 1, n =>
    if n < 10 then [digitChars.getD n (Char.ofNat 48)]
    else natDigits fuel (n / 10) ++ [digitChars.getD (n % 10) (Char.ofNat 48)]

/-- JavaScript String(n) for an integer value. -/
def jsNumToString (n : Int) : String :=
  match n with
  | .ofNat m => ⟨natDigits (m + 1) m⟩
  | .negSucc m => ⟨Char.ofNat 45 :: natDigits (m + 2) (m + 1)⟩

/-- JavaScript string coercion String(v), as applied by template literals
and by object-key conversion. -/
def JSVal.toDisplayString : JSVal → String
  | .str s => s
  | .num n => jsNumToString n
  | .boolean true => "true"
  | .boolean false => "false"
  | .null => "null"
  | .undefined => "undefined"

/-- JavaScript truthiness of a value. -/
def JSVal.truthy : JSVal → Bool
  | .str s => s != ""
  | .num n => n != 0
  | .boolean b => b
  | .null => false
  | .undefined => false

/-- Model of a JavaScript thrown value. `driverError` stands for a
dialect-specific exception class raised by the mssql driver (for example
RequestError), carrying its class name and message; `error` is the plain
built-in Error; `typeError` is a runtime TypeError; `stringValue` is a
thrown plain string. -/
inductive JSError where
  | error (message : String)
  | driverError (name : String) (message : String)
  | typeError (message : String)
  | stringValue (s : String)
deriving DecidableEq

/-- Message carried by a thrown value. -/
def JSError.message : JSError → String
  | .error m => m
  | .driverError _ m => m
  | .typeError m => m
  | .stringValue s => s

/-- JavaScript String(err), as computed by new Error(err): the error name,
a colon and the message (a thrown plain string converts to itself). -/
def JSError.toStringJS : JSError → String
  | .error m => "Error: " ++ m
  | .driverError name m => name ++ ": " ++ m
  | .typeError m => "TypeError: " ++ m
  | .stringValue s => s

/-- Row of a driver result set: a JavaScript object, modelled as an
association list from property name to value. -/
def Row : Type := List (String × JSVal)

instance : DecidableEq Row := by
  unfold Row
  infer_instance

/-- JavaScript property access row[key]: the stored value, or undefined
when the property is absent. -/
def getField (r : Row) (k : String) : JSVal :=
  match r.find? (fun p => p.1 == k) with
  | some p => p.2
  | none => JSVal.undefined

/-- Result of one driver request: the mssql driver exposes a recordset
property that is an array of rows, or undefined for statements that
produce no result set. -/
structure QueryResult where
  recordset : Option (List Row)
deriving DecidableEq

/-- Oracle for the connected mssql driver: given the final SQL text and the
ordered named inputs bound on the request, produce the driver result or a
thrown value. -/
structure Client where
  run : String → List (String × JSVal) → Except JSError QueryResult

/-- SqlQuery object from the definitions module: SQL text plus an optional
array of bindings (bindings may be absent, which Array.isArray rejects). -/
structure SqlQuery where
  sql : String
  bindings : Option (List JSVal)
deriving DecidableEq

/-- Argument of the CRUD methods: either a raw SQL string or a SqlQuery. -/
inductive QueryInput where
  | strInput (s : String)
  | qInput (q : SqlQuery)
deriving DecidableEq

/-- Modelled from the spec: helper `getSqlQuery` from ./utils (not under
src/); the external interface (spec section 6) passes raw SQL text with
positional bindings, and a plain string becomes a query object with no
bindings array. -/
def getSqlQuery : QueryInput → SqlQuery
  | .strInput s => { sql := s, bindings := none }
  | .qInput q => q

/-- Modelled from the spec: the Operation enumeration from the definitions
module (not under src/); operation names label the four CRUD operations. -/
def Operation.CREATE : String := "CREATE"

/-- Positional parameters bound on the request by internalQuery: one named
input p0, p1, ... per binding, in binding-array order (source lines 89-94). -/
def bindInputs (bs : List JSVal) : List (String × JSVal) :=
  bs.enum.map (fun p => ("p" ++ toString p.1, p.2))

/-- Inputs bound for a query: the bindings array when it is an array,
otherwise nothing (Array.isArray guard, source line 89). -/
def requestInputs (q : SqlQuery) : List (String × JSVal) :=
  match q.bindings with
  | some bs => bindInputs bs
  | none => []

/-- Final SQL text sent by internalQuery: for a CREATE operation the
inserted-identifier fetch is appended as a second statement in the same
request; otherwise the text is unchanged (source lines 95-100). -/
def mssqlRequestSql (operation : Option String) (q : SqlQuery) : String :=
  if operation = some Operation.CREATE then
    q.sql ++ "; SELECT SCOPE_IDENTITY() AS id;"
  else q.sql

/-- Shared catch behaviour: run the request and wrap any thrown value err
into new Error(err), i.e. a plain Error carrying String(err) as message. -/
def wrapRun (client : Client) (sql : String) (inputs : List (String × JSVal)) :
    Except JSError QueryResult :=
  match client.run sql inputs with
  | .ok r => .ok r
  | .error e => .error (JSError.error e.toStringJS)

/-- Embedding of internalQuery (source lines 82-106): bind the positional
inputs, compute the final SQL text, execute, and wrap any thrown value. -/
def internalQuery (client : Client) (q : SqlQuery) (operation : Option String) :
    Except JSError QueryResult :=
  wrapRun client (mssqlRequestSql operation q) (requestInputs q)

/-- Canonical column record stored in a table schema (source lines 221-225). -/
structure Column where
  autocolumn : Bool
  name : String
  type : String
deriving DecidableEq

/-- Canonical table entity built by buildSchema (source lines 227-232).
The views field is caller-owned metadata (spec section 3) that the merge
step copies forward; the introspection loop never sets it. -/
structure Table where
  _id : String
  primary : List JSVal
  name : String
  schema : List (String × Column)
  views : Option JSVal := none
deriving DecidableEq

/-- Result of the schema sync: tables plus the per-table error report. -/
structure SchemaSyncResult where
  tables : List (String × Table)
  errors : List (String × String)
deriving DecidableEq

/-- Modelled from the spec: `convertSqlType` from ./utils (not under src/).
Spec section 4.1: a total map from a native type name to a canonical field
type, defaulting to the string type for every unknown input. -/
def convertSqlType (v : JSVal) : String :=
  match v with
  | .str "int" | .str "bigint" | .str "smallint" | .str "tinyint"
  | .str "decimal" | .str "numeric" | .str "float" | .str "real" => "number"
  | .str "bit" => "boolean"
  | .str "datetime" | .str "datetime2" | .str "date"
  | .str "smalldatetime" | .str "time" => "datetime"
  | _ => "string"

/-- Modelled from the spec: `buildExternalTableId` from ./utils (not under
src/). Spec section 3: the table id is deterministically derived from the
pair (datasourceId, tableName). -/
def buildExternalTableId (datasourceId tableName : String) : String :=
  datasourceId ++ "__" ++ tableName

/-- JavaScript object-property assignment obj[k] = v on an association
list: an existing key keeps its position and takes the new value, a new
key is appended. -/
def objSet (m : List (String × α)) (k : String) (v : α) : List (String × α) :=
  if m.any (fun p => p.1 == k) then
    m.map (fun p => if p.1 == k then (k, v) else p)
  else m ++ [(k, v)]

/-- Autocolumn flag for a named column (source line 222): the double-bang
truthiness of autoColumns.find(col => col === name); the found element is
the name itself, so an empty-string name is falsy even when found. -/
def autocolumnFlag (autoColumns : List JSVal) (name : String) : Bool :=
  JSVal.truthy ((autoColumns.find? (fun col => col == JSVal.str name)).getD JSVal.undefined)

/-- Column record built for one definition row (source lines 221-225). -/
def columnFor (autoColumns : List JSVal) (name : String) (dataType : JSVal) : Column :=
  { autocolumn := autocolumnFlag autoColumns name
    name := name
    type := convertSqlType dataType }

/-- Body of the definition-row loop (source lines 214-226): a row whose
COLUMN_NAME is not a string is skipped via continue; a string-named row is
written into the schema object under its own name. -/
def schemaStep (autoColumns : List JSVal) (schema : List (String × Column))
    (d : Row) : List (String × Column) :=
  match getField d "COLUMN_NAME" with
  | JSVal.str name =>
    objSet schema name (columnFor autoColumns name (getField d "DATA_TYPE"))
  | _ => schema

/-- Inner loop of buildSchema over the definition rows (source lines
213-226). -/
def buildTableSchema (autoColumns : List JSVal) :
    List Row → List (String × Column) → List (String × Column)
  | [], schema => schema
  | d :: rest, schema =>
    buildTableSchema autoColumns rest (schemaStep autoColumns schema d)

/-- Denylist of engine-internal master tables (source lines 114-120). -/
def MASTER_TABLES : List String :=
  ["spt_fallback_db", "spt_fallback_dev", "spt_fallback_usg", "spt_monitor",
   "MSreplication_options"]

/-- Metadata query for the list of base tables (source lines 121-122). -/
def TABLES_SQL : String :=
  "SELECT * FROM INFORMATION_SCHEMA.TABLES WHERE TABLE_TYPE=\x27BASE TABLE\x27"

/-- Metadata query for the column definitions of one table (source lines
124-128). -/
def getDefinitionSQL (tableName : String) : String :=
  "select *\n              from INFORMATION_SCHEMA.COLUMNS\n              where TABLE_NAME=\x27" ++ tableName ++ "\x27"

/-- Metadata query for the primary-key constraint rows of one table
(source lines 130-139). -/
def getConstraintsSQL (tableName : String) : String :=
  "SELECT * FROM INFORMATION_SCHEMA.TABLE_CONSTRAINTS AS TC \n              INNER JOIN INFORMATION_SCHEMA.KEY_COLUMN_USAGE AS KU\n                ON TC.CONSTRAINT_TYPE = \x27PRIMARY KEY\x27 \n                AND TC.CONSTRAINT_NAME = KU.CONSTRAINT_NAME \n                AND KU.table_name=\x27" ++ tableName ++ "\x27\n              ORDER BY \n                KU.TABLE_NAME,\n                KU.ORDINAL_POSITION;"

/-- Metadata query for the computed and identity columns of one table
(source lines 141-150). -/
def getAutoColumnsSQL (tableName : String) : String :=
  "SELECT \n              COLUMNPROPERTY(OBJECT_ID(TABLE_SCHEMA+\x27.\x27+TABLE_NAME),COLUMN_NAME,\x27IsComputed\x27) \n                AS IS_COMPUTED,\n              COLUMNPROPERTY(object_id(TABLE_SCHEMA+\x27.\x27+TABLE_NAME), COLUMN_NAME, \x27IsIdentity\x27)\n                AS IS_IDENTITY,\n              *\n              FROM INFORMATION_SCHEMA.COLUMNS\n              WHERE TABLE_NAME=\x27" ++ tableName ++ "\x27"

/-- Embedding of runSQL (source lines 177-179): execute the raw SQL through
internalQuery and project the recordset property. -/
def runSQL (client : Client) (sql : String) : Except JSError (Option (List Row)) :=
  match internalQuery client (getSqlQuery (QueryInput.strInput sql)) none with
  | .error e => .error e
  | .ok r => .ok r.recordset

/-- Primary-key column names derived from the constraint rows (source
lines 204-208). -/
def primaryKeysOf (constraints : List Row) : List JSVal :=
  (constraints.filter
    (fun c => getField c "CONSTRAINT_TYPE" == JSVal.str "PRIMARY KEY")).map
    (fun c => getField c "COLUMN_NAME")

/-- Auto-column names derived from the auto-column rows (source lines
209-211): rows whose IS_COMPUTED or IS_IDENTITY property is truthy. -/
def autoColumnsOf (columns : List Row) : List JSVal :=
  (columns.filter
    (fun c => (getField c "IS_COMPUTED").truthy || (getField c "IS_IDENTITY").truthy)).map
    (fun c => getField c "COLUMN_NAME")

/-- Table entity assembled from the three successful metadata fetches
(source lines 204-232). -/
def assembleTable (datasourceId tableName : String)
    (definition constraints columns : List Row) : Table :=
  { _id := buildExternalTableId datasourceId tableName
    primary := primaryKeysOf constraints
    name := tableName
    schema := buildTableSchema (autoColumnsOf columns) definition [] }

/-- Body of the per-table introspection in buildSchema (source lines
197-232): fetch definition, constraint and auto-column rows, derive the
primary keys and auto columns, and assemble the table entity. A missing
recordset raises a TypeError where the code first filters or iterates the
absent array (constraints first, then columns, then definition). -/
def introspectTable (client : Client) (datasourceId tableName : String) :
    Except JSError Table :=
  match runSQL client (getDefinitionSQL tableName) with
  | .error e => .error e
  | .ok definitionOpt =>
    match runSQL client (getConstraintsSQL tableName) with
    | .error e => .error e
    | .ok constraintsOpt =>
      match runSQL client (getAutoColumnsSQL tableName) with
      | .error e => .error e
      | .ok columnsOpt =>
        match constraintsOpt, columnsOpt, definitionOpt with
        | none, _, _ =>
          .error (JSError.typeError "Cannot read properties of undefined (reading filter)")
        | some _, none, _ =>
          .error (JSError.typeError "Cannot read properties of undefined (reading filter)")
        | some _, some _, none =>
          .error (JSError.typeError "definition is not iterable")
        | some constraints, some columns, some definition =>
          .ok (assembleTable datasourceId tableName definition constraints columns)

/-- Keep predicate of the denylist filter (source line 194):
MASTER_TABLES.indexOf(name) === -1 under strict equality. -/
def keepTable (v : JSVal) : Bool :=
  MASTER_TABLES.all (fun m => !(v == JSVal.str m))

/-- Table names extracted from the TABLES_SQL recordset (source lines
192-194): map each record to its TABLE_NAME property and drop the
denylisted master tables. -/
def tableNamesFrom (records : List Row) : List JSVal :=
  (records.map (fun r => getField r "TABLE_NAME")).filter keepTable

/-- Loop of buildSchema over the table names (source lines 196-233): each
name is coerced to a string where it is interpolated and used as key; a
thrown value from any per-table fetch propagates and aborts the loop. -/
def freshTablesLoop (client : Client) (datasourceId : String) :
    List JSVal → List (String × Table) → Except JSError (List (String × Table))
  | [], acc => .ok acc
  | v :: rest, acc =>
    match introspectTable client datasourceId v.toDisplayString with
    | .error e => .error e
    | .ok t =>
      freshTablesLoop client datasourceId rest (objSet acc v.toDisplayString t)

/-- Freshly introspected table set of buildSchema (source lines 186-233,
before finalisation): fetch the table list, fail when it is not a usable
array, filter the denylist, then introspect every remaining table. -/
def freshTables (client : Client) (datasourceId : String) :
    Except JSError (List (String × Table)) :=
  match runSQL client TABLES_SQL with
  | .error e => .error e
  | .ok none => .error (JSError.stringValue "Unable to get list of tables in database")
  | .ok (some records) => freshTablesLoop client datasourceId (tableNamesFrom records) []

/-- Modelled from the spec: `finaliseExternalTables` from ./utils (not
under src/). Spec section 4.5: for each fresh table copy forward the
caller-owned fields (views) from a prior table with the same id and keep
the freshly introspected fields; retain prior tables whose name is no
longer present upstream. The per-table error report collects introspection
failures, and this dialect records none before aborting, so it is empty. -/
def finaliseExternalTables (tables entities : List (String × Table)) :
    SchemaSyncResult :=
  { tables :=
      tables.map (fun p =>
        match entities.find? (fun q => q.2._id == p.2._id) with
        | some q => (p.1, { p.2 with views := q.2.views })
        | none => p)
      ++ entities.filter (fun q => !(tables.any (fun p => p.1 == q.1)))
    errors := [] }

/-- Embedding of buildSchema (source lines 186-237): the freshly
introspected tables are finalised against the prior entities; the pair of
final tables and errors is what the method stores on the integration. -/
def buildSchema (client : Client) (datasourceId : String)
    (entities : List (String × Table)) : Except JSError SchemaSyncResult :=
  (freshTables client datasourceId).map
    (fun ts => finaliseExternalTables ts entities)

/-- Datasource configuration fields of the integration (source lines 23-30). -/
structure MSSQLConfig where
  user : String
  password : String
  server : String
  port : Nat
  database : String
  encrypt : Option Bool
deriving DecidableEq

/-- Options object of the driver configuration (source lines 157-160). -/
structure ClientOptions where
  encrypt : Option Bool
  enableArithAbort : Bool
deriving DecidableEq

/-- Driver configuration built in the constructor (source lines 155-162):
the spread of the datasource configuration plus the options object, with
the top-level encrypt key deleted. -/
structure ClientCfg where
  user : String
  password : String
  server : String
  port : Nat
  database : String
  options : ClientOptions
deriving DecidableEq

/-- Construction of the driver configuration (source lines 155-162). -/
def mkClientCfg (c : MSSQLConfig) : ClientCfg :=
  { user := c.user
    password := c.password
    server := c.server
    port := c.port
    database := c.database
    options := { encrypt := c.encrypt, enableArithAbort := true } }

/-- One allocated ConnectionPool object, identified by its allocation
number and carrying the configuration it was constructed with. -/
structure Pool where
  poolId : Nat
  cfg : ClientCfg
deriving DecidableEq

/-- Instance state of a SqlServerIntegration object: its configuration and
its own pool property. The class declares a static pool field, but a
this.pool access resolves through the instance and its prototype chain,
which never reaches a static class field, so the instance property alone
is what the constructor and connect read and write. -/
structure Instance where
  config : MSSQLConfig
  pool : Option Pool
deriving DecidableEq

/-- Process-wide allocation state: how many ConnectionPool objects have
been constructed so far in this process. -/
structure ProcState where
  allocated : Nat
deriving DecidableEq

/-- Embedding of the constructor (source lines 152-166): build the driver
configuration; the guard if (!this.pool) reads the instance property,
which is undefined on the freshly created object, so a new ConnectionPool
is allocated on every construction and stored on the instance. -/
def mkSqlServerIntegration (st : ProcState) (config : MSSQLConfig) :
    Instance × ProcState :=
  let inst : Instance := { config := config, pool := none }
  if inst.pool.isNone then
    ({ inst with pool := some { poolId := st.allocated, cfg := mkClientCfg config } },
     { allocated := st.allocated + 1 })
  else (inst, st)

/-- Embedding of connect (source lines 168-175): acquire a client from the
pool of the instance, wrapping a thrown value into new Error(err); no pool
is ever created here, and the instance is returned unchanged. -/
def connect (inst : Instance) (poolConnect : Pool → Except JSError Client) :
    Except JSError (Instance × Client) :=
  match inst.pool with
  | none => .error (JSError.typeError "Cannot read properties of undefined (reading connect)")
  | some p =>
    match poolConnect p with
    | .ok c => .ok (inst, c)
    | .error e => .error (JSError.error e.toStringJS)

/-- Success marker row synthesized by the create method. -/
def createdMarker : Row := [("created", JSVal.boolean true)]

/-- Success marker row synthesized by the update method. -/
def updatedMarker : Row := [("updated", JSVal.boolean true)]

/-- Success marker row synthesized by the delete method. -/
def deletedMarker : Row := [("deleted", JSVal.boolean true)]

namespace SqlServerIntegration

/-- Embedding of read (source lines 239-243): connect, execute, and return
the recordset property unchanged, absent when the driver produced none. -/
def read (inst : Instance) (poolConnect : Pool → Except JSError Client)
    (query : QueryInput) : Except JSError (Option (List Row)) :=
  match connect inst poolConnect with
  | .error e => .error e
  | .ok (_, client) =>
    match internalQuery client (getSqlQuery query) none with
    | .error e => .error e
    | .ok response => .ok response.recordset

/-- Embedding of create (source lines 245-249): connect, execute, and
return response.recordset || [{created: true}]; an absent recordset is
falsy and yields the marker, a present recordset, empty included, is
truthy and passes through unchanged. -/
def create (inst : Instance) (poolConnect : Pool → Except JSError Client)
    (query : QueryInput) : Except JSError (List Row) :=
  match connect inst poolConnect with
  | .error e => .error e
  | .ok (_, client) =>
    match internalQuery client (getSqlQuery query) none with
    | .error e => .error e
    | .ok response => .ok (response.recordset.getD [createdMarker])

/-- Embedding of update (source lines 251-255), like create with the
updated marker. -/
def update (inst : Instance) (poolConnect : Pool → Except JSError Client)
    (query : QueryInput) : Except JSError (List Row) :=
  match connect inst poolConnect with
  | .error e => .error e
  | .ok (_, client) =>
    match internalQuery client (getSqlQuery query) none with
    | .error e => .error e
    | .ok response => .ok (response.recordset.getD [updatedMarker])

/-- Embedding of delete (source lines 257-261), like create with the
deleted marker. -/
def delete (inst : Instance) (poolConnect : Pool → Except JSError Client)
    (query : QueryInput) : Except JSError (List Row) :=
  match connect inst poolConnect with
  | .error e => .error e
  | .ok (_, client) =>
    match internalQuery client (getSqlQuery query) none with
    | .error e => .error e
    | .ok response => .ok (response.recordset.getD [deletedMarker])

end SqlServerIntegration

/-- Dialect-neutral query description consumed by the query method (spec
section 3): operation name, table, fields to set, and filters. -/
structure QueryJson where
  operation : String
  table : String
  fields : List (String × JSVal)
  filterCols : List String
  filterVals : List JSVal

/-- Modelled from the spec: `_operation` from the base Sql class (not
under src/); it reports the operation name of a query description. -/
def opOf (json : QueryJson) : String := json.operation

/-- Concatenation of string pieces with a separator. -/
def joinWith (sep : String) : List String → String
  | [] => ""
  | [x] => x
  | x :: xs => x ++ sep ++ joinWith sep xs

/-- Positional placeholder names at and after a start index. -/
def placeholderList (start n : Nat) : List String :=
  (List.range n).map (fun i => "@p" ++ toString (start + i))

/-- WHERE clause over filter columns: one parameterized predicate per
column, placeholders numbered from the start index in column order. -/
def whereClause (cols : List String) (start : Nat) : String :=
  if cols.isEmpty then ""
  else " where " ++
    joinWith " and " (cols.enum.map (fun p => p.2 ++ " = @p" ++ toString (start + p.1)))

/-- SET clause over assigned columns, placeholders numbered from zero. -/
def setClause (cols : List String) : String :=
  joinWith ", " (cols.enum.map (fun p => p.2 ++ " = @p" ++ toString p.1))

/-- Modelled from the spec: the SQL Dialect Builder of the base Sql class
(./base/sql, not under src/). Spec section 4.2: each operation renders to
SQL text containing only positional placeholders for every caller value,
with the ordered bindings aligned to placeholder order; values are never
interpolated into the text. -/
def renderQuery (json : QueryJson) : SqlQuery :=
  if json.operation = "CREATE" then
    { sql := "insert into [" ++ json.table ++ "] (" ++
        joinWith ", " (json.fields.map Prod.fst) ++ ") values (" ++
        joinWith ", " (placeholderList 0 json.fields.length) ++ ")"
      bindings := some (json.fields.map Prod.snd) }
  else if json.operation = "UPDATE" then
    { sql := "update [" ++ json.table ++ "] set " ++
        setClause (json.fields.map Prod.fst) ++
        whereClause json.filterCols json.fields.length
      bindings := some (json.fields.map Prod.snd ++ json.filterVals) }
  else if json.operation = "DELETE" then
    { sql := "delete from [" ++ json.table ++ "]" ++ whereClause json.filterCols 0
      bindings := some json.filterVals }
  else
    { sql := "select * from [" ++ json.table ++ "]" ++ whereClause json.filterCols 0
      bindings := some json.filterVals }

/-- Modelled from the spec: `queryWithReturning` from the base Sql class
(./base/sql, not under src/). Spec section 4.3: render the description,
execute it through the provided query function with the operation name,
and normalize the result shape through the provided process function. -/
def queryWithReturning (json : QueryJson)
    (queryFn : SqlQuery → String → Except JSError QueryResult)
    (processFn : QueryResult → List Row) : Except JSError (List Row) :=
  match queryFn (renderQuery json) (opOf json) with
  | .error e => .error e
  | .ok result => .ok (processFn result)

namespace SqlServerIntegration

/-- Embedding of the query method (source lines 263-271): connect, execute
through queryWithReturning, and normalize: a present recordset passes
through, an absent one becomes the marker keyed by the operation name. -/
def query (inst : Instance) (poolConnect : Pool → Except JSError Client)
    (json : QueryJson) : Except JSError (List Row) :=
  match connect inst poolConnect with
  | .error e => .error e
  | .ok (_, client) =>
    queryWithReturning json
      (fun q op => internalQuery client q (some op))
      (fun result => result.recordset.getD [[(opOf json, JSVal.boolean true)]])

end SqlServerIntegration

section HelperLemmas

/-- Membership of getD when the default itself is a member. -/
theorem getD_mem (l : List α) (i : Nat) (d : α) (hd : d ∈ l) : l.getD i d ∈ l := by
  rw [List.getD_eq_getElem?_getD]
  cases h : l[i]? with
  | none => simpa using hd
  | some x =>
    have := List.getElem?_mem h
    simpa [h] using this

/-- Every character produced by natDigits is a decimal digit. -/
theorem natDigits_chars : ∀ (fuel n : Nat), ∀ c ∈ natDigits fuel n, c ∈ digitChars := by
  intro fuel
  induction fuel with
  | zero => intro n c hc; simp [natDigits] at hc
  | succ fuel ih =>
    intro n c hc
    unfold natDigits at hc
    split at hc
    · rw [List.mem_singleton] at hc
      exact hc ▸ getD_mem digitChars n (Char.ofNat 48) (by decide)
    · rcases List.mem_append.mp hc with h | h
      · exact ih _ c h
      · rw [List.mem_singleton] at h
        exact h ▸ getD_mem digitChars (n % 10) (Char.ofNat 48) (by decide)

/-- Every character of a rendered JavaScript number is a minus sign or a
decimal digit. -/
theorem jsNumToString_chars (n : Int) :
    ∀ c ∈ (jsNumToString n).toList, c = Char.ofNat 45 ∨ c ∈ digitChars := by
  intro c hc
  cases n with
  | ofNat m =>
    right
    exact natDigits_chars (m + 1) m c hc
  | negSucc m =>
    rcases List.mem_cons.mp hc with h | h
    · exact Or.inl h
    · exact Or.inr (natDigits_chars (m + 2) (m + 1) c h)

/-- A string containing a character that is neither a minus sign nor a
digit is not the rendering of any JavaScript number. -/
theorem jsNumToString_ne (n : Int) (s : String) (c : Char) (hc : c ∈ s.toList)
    (hno : ¬(c = Char.ofNat 45 ∨ c ∈ digitChars)) : jsNumToString n ≠ s := by
  intro h
  rw [← h] at hc
  exact hno (jsNumToString_chars n c hc)

/-- A value surviving the denylist filter never coerces to the name of a
denylisted master table. -/
theorem keepTable_toDisplayString (v : JSVal) (hk : keepTable v = true) :
    v.toDisplayString ∉ MASTER_TABLES := by
  cases v with
  | str s =>
    intro hm
    unfold keepTable at hk
    rw [List.all_eq_true] at hk
    rw [show (JSVal.str s).toDisplayString = s from rfl] at hm
    have h2 := hk s hm
    simp at h2
  | num n =>
    intro hm
    simp only [MASTER_TABLES, JSVal.toDisplayString, List.mem_cons,
      List.not_mem_nil, or_false] at hm
    rcases hm with h | h | h | h | h <;>
      exact absurd h (jsNumToString_ne n _ (Char.ofNat 115) (by decide) (by decide))
  | boolean b => cases b <;> decide
  | null => decide
  | undefined => decide

/-- Keys after a JavaScript object assignment: the new key joins the key
set, existing keys are unchanged. -/
theorem mem_objSet_fst (m : List (String × α)) (k : String) (v : α) (a : String) :
    a ∈ (objSet m k v).map Prod.fst ↔ a ∈ m.map Prod.fst ∨ a = k := by
  unfold objSet
  split
  case isTrue h =>
    have hmap : (m.map (fun p => if p.1 == k then (k, v) else p)).map Prod.fst =
        m.map Prod.fst := by
      rw [List.map_map]
      apply List.map_congr_left
      intro p _
      by_cases hpk : p.1 = k
      · simp [hpk]
      · simp [hpk]
    rw [hmap]
    constructor
    · exact Or.inl
    · rintro (h2 | rfl)
      · exact h2
      · rw [List.any_eq_true] at h
        rcases h with ⟨p, hp, hpk⟩
        rw [beq_iff_eq] at hpk
        exact List.mem_map.mpr ⟨p, hp, hpk⟩
  case isFalse h =>
    rw [List.map_append]
    simp [List.mem_append]

/-- Pointwise property preservation through a JavaScript object
assignment. -/
theorem objSet_forall {P : String × α → Prop} (m : List (String × α)) (k : String)
    (v : α) (hm : ∀ p ∈ m, P p) (hkv : P (k, v)) : ∀ p ∈ objSet m k v, P p := by
  intro p hp
  unfold objSet at hp
  split at hp
  · rcases List.mem_map.mp hp with ⟨q, hq, hqe⟩
    by_cases hqk : q.1 = k
    · simp only [hqk, beq_self_eq_true, if_true] at hqe
      exact hqe ▸ hkv
    · have hb : ¬((q.1 == k) = true) := by simpa using hqk
      rw [if_neg hb] at hqe
      exact hqe ▸ hm q hq
  · rcases List.mem_append.mp hp with h | h
    · exact hm p h
    · simp at h
      exact h ▸ hkv

end HelperLemmas

section LoopLemmas

/-- Identity and name of a successfully introspected table: the id is the
deterministic function of the datasource id and the table name, and the
stored name is the table name itself. -/
theorem introspectTable_ok (client : Client) (dsId n : String) (t : Table)
    (h : introspectTable client dsId n = .ok t) :
    t._id = buildExternalTableId dsId n ∧ t.name = n := by
  unfold introspectTable at h
  cases hd : runSQL client (getDefinitionSQL n) with
  | error e => rw [hd] at h; exact absurd h (by simp)
  | ok dOpt =>
    rw [hd] at h
    cases hc : runSQL client (getConstraintsSQL n) with
    | error e => rw [hc] at h; exact absurd h (by simp)
    | ok cOpt =>
      rw [hc] at h
      cases ha : runSQL client (getAutoColumnsSQL n) with
      | error e => rw [ha] at h; exact absurd h (by simp)
      | ok aOpt =>
        rw [ha] at h
        match cOpt, aOpt, dOpt with
        | none, _, _ => exact absurd h (by simp)
        | some _, none, _ => exact absurd h (by simp)
        | some _, some _, none => exact absurd h (by simp)
        | some constraints, some columns, some definition =>
          simp only [Except.ok.injEq] at h
          rw [← h]
          exact ⟨rfl, rfl⟩

/-- Pointwise property preservation through the table loop: if every
successful introspection of a listed name yields a pair satisfying P, and
the accumulator satisfies P, then the final table set satisfies P. -/
theorem freshTablesLoop_forall (client : Client) (dsId : String)
    (P : String × Table → Prop) :
    ∀ (names : List JSVal) (acc ts : List (String × Table)),
      (∀ v ∈ names, ∀ t, introspectTable client dsId v.toDisplayString = .ok t →
        P (v.toDisplayString, t)) →
      (∀ p ∈ acc, P p) →
      freshTablesLoop client dsId names acc = .ok ts → ∀ p ∈ ts, P p := by
  intro names
  induction names with
  | nil =>
    intro acc ts _ hacc h
    unfold freshTablesLoop at h
    simp only [Except.ok.injEq] at h
    exact h ▸ hacc
  | cons v rest ih =>
    intro acc ts hnames hacc h
    unfold freshTablesLoop at h
    cases hi : introspectTable client dsId v.toDisplayString with
    | error e => rw [hi] at h; exact absurd h (by simp)
    | ok t =>
      rw [hi] at h
      exact ih _ _ (fun u hu => hnames u (List.mem_cons_of_mem _ hu))
        (objSet_forall _ _ _ hacc (hnames v (List.mem_cons_self _ _) t hi)) h

/-- Success of the table loop requires every listed table to introspect
successfully: no failure is tolerated or recorded. -/
theorem freshTablesLoop_all_ok (client : Client) (dsId : String) :
    ∀ (names : List JSVal) (acc ts : List (String × Table)),
      freshTablesLoop client dsId names acc = .ok ts →
      ∀ v ∈ names, ∃ t, introspectTable client dsId v.toDisplayString = .ok t := by
  intro names
  induction names with
  | nil => intro acc ts _ v hv; exact absurd hv (List.not_mem_nil v)
  | cons u rest ih =>
    intro acc ts h v hv
    unfold freshTablesLoop at h
    cases hi : introspectTable client dsId u.toDisplayString with
    | error e => rw [hi] at h; exact absurd h (by simp)
    | ok t =>
      rw [hi] at h
      rcases List.mem_cons.mp hv with rfl | hv2
      · exact ⟨t, hi⟩
      · exact ih _ _ h v hv2

/-- Pointwise property of the fresh table set of a successful buildSchema
run, induced by a property of successful single-table introspection
results. -/
theorem freshTables_forall (client : Client) (dsId : String)
    (P : String × Table → Prop)
    (hP : ∀ (v : JSVal), keepTable v = true → ∀ t,
      introspectTable client dsId v.toDisplayString = .ok t →
      P (v.toDisplayString, t)) :
    ∀ ts, freshTables client dsId = .ok ts → ∀ p ∈ ts, P p := by
  intro ts h
  unfold freshTables at h
  cases hr : runSQL client TABLES_SQL with
  | error e => rw [hr] at h; exact absurd h (by simp)
  | ok rOpt =>
    rw [hr] at h
    match rOpt with
    | none => exact absurd h (by simp)
    | some records =>
      refine freshTablesLoop_forall client dsId P (tableNamesFrom records) [] ts
        ?_ (by intro p hp; exact absurd hp (List.not_mem_nil p)) h
      intro v hv t ht
      unfold tableNamesFrom at hv
      exact hP v (List.of_mem_filter hv) t ht

end LoopLemmas

section SchemaLemmas

/-- Characterization of the autocolumn flag: the double-bang of the find
result is true exactly for a non-empty name that appears among the
auto-column names; for an empty-string name the found element is the empty
string itself, which is falsy. -/
theorem autocolumnFlag_iff (auto : List JSVal) (name : String) :
    autocolumnFlag auto name = true ↔ (name ≠ "" ∧ JSVal.str name ∈ auto) := by
  unfold autocolumnFlag
  cases hf : auto.find? (fun col => col == JSVal.str name) with
  | none =>
    simp only [Option.getD_none]
    constructor
    · intro h; exact absurd h (by simp [JSVal.truthy])
    · rintro ⟨_, hmem⟩
      have := List.find?_eq_none.mp hf _ hmem
      simp at this
  | some v =>
    have hv : v = JSVal.str name := by
      have := List.find?_some hf
      simpa using this
    have hmem : JSVal.str name ∈ auto := hv ▸ List.mem_of_find?_eq_some hf
    subst hv
    simp only [Option.getD_some]
    constructor
    · intro h
      refine ⟨?_, hmem⟩
      simpa [JSVal.truthy] using h
    · rintro ⟨hne, _⟩
      simpa [JSVal.truthy] using hne

/-- Keys after one definition-row step: the key set gains the name of the
row exactly when that name is a string. -/
theorem schemaStep_keys (auto : List JSVal) (schema : List (String × Column))
    (d : Row) (n : String) :
    n ∈ (schemaStep auto schema d).map Prod.fst ↔
      (n ∈ schema.map Prod.fst ∨ getField d "COLUMN_NAME" = JSVal.str n) := by
  unfold schemaStep
  cases h : getField d "COLUMN_NAME" with
  | str name =>
    rw [mem_objSet_fst]
    simp [eq_comm]
  | num m => simp
  | boolean b => simp
  | null => simp
  | undefined => simp

/-- Pointwise property preservation through one definition-row step. -/
theorem schemaStep_forall {P : String × Column → Prop} (auto : List JSVal)
    (schema : List (String × Column)) (d : Row)
    (hm : ∀ p ∈ schema, P p)
    (hcol : ∀ name dt, P (name, columnFor auto name dt)) :
    ∀ p ∈ schemaStep auto schema d, P p := by
  unfold schemaStep
  cases h : getField d "COLUMN_NAME" with
  | str name => exact objSet_forall _ _ _ hm (hcol name _)
  | num m => exact hm
  | boolean b => exact hm
  | null => exact hm
  | undefined => exact hm

/-- Key set of the schema built from the definition rows: exactly the
string-valued COLUMN_NAME entries of the rows, plus the accumulator keys. -/
theorem buildTableSchema_keys (auto : List JSVal) :
    ∀ (defs : List Row) (acc : List (String × Column)) (n : String),
      n ∈ (buildTableSchema auto defs acc).map Prod.fst ↔
        (n ∈ acc.map Prod.fst ∨ ∃ d ∈ defs, getField d "COLUMN_NAME" = JSVal.str n) := by
  intro defs
  induction defs with
  | nil => intro acc n; unfold buildTableSchema; simp
  | cons d rest ih =>
    intro acc n
    unfold buildTableSchema
    rw [ih, schemaStep_keys]
    simp only [List.mem_cons]
    constructor
    · rintro ((h | h) | ⟨d2, hd2, he⟩)
      · exact Or.inl h
      · exact Or.inr ⟨d, Or.inl rfl, h⟩
      · exact Or.inr ⟨d2, Or.inr hd2, he⟩
    · rintro (h | ⟨d2, hd2, he⟩)
      · exact Or.inl (Or.inl h)
      · rcases hd2 with rfl | hd3
        · exact Or.inl (Or.inr he)
        · exact Or.inr ⟨d2, hd3, he⟩

/-- Pointwise property of every entry of the built schema, induced by a
property of every column record the loop can produce. -/
theorem buildTableSchema_forall {P : String × Column → Prop} (auto : List JSVal)
    (hcol : ∀ name dt, P (name, columnFor auto name dt)) :
    ∀ (defs : List Row) (acc : List (String × Column)),
      (∀ p ∈ acc, P p) → ∀ p ∈ buildTableSchema auto defs acc, P p := by
  intro defs
  induction defs with
  | nil => intro acc hacc; unfold buildTableSchema; exact hacc
  | cons d rest ih =>
    intro acc hacc
    unfold buildTableSchema
    exact ih _ (schemaStep_forall auto acc d hacc hcol)

end SchemaLemmas

section ClaimSupport

/-- Demonstration datasource configuration for the concrete instances. -/
def cfg0 : MSSQLConfig :=
  { user := "sa", password := "secret", server := "localhost", port := 1433,
    database := "main", encrypt := some true }

/-- Integration instance constructed first in a fresh process. -/
def inst0 : Instance := (mkSqlServerIntegration { allocated := 0 } cfg0).1

/-- Pool allocated for inst0. -/
def pool0 : Pool := { poolId := 0, cfg := mkClientCfg cfg0 }

/-- Client whose every request succeeds with an empty recordset. -/
def clientOkEmpty : Client := { run := fun _ _ => .ok { recordset := some [] } }

/-- Pool connector handing out clientOkEmpty. -/
def pcOk : Pool → Except JSError Client := fun _ => .ok clientOkEmpty

/-- Connect succeeds and returns the instance unchanged together with the
client acquired from the pool of the instance. -/
theorem connect_ok (inst : Instance) (pl : Pool)
    (pc : Pool → Except JSError Client) (client : Client)
    (hpool : inst.pool = some pl) (hpc : pc pl = .ok client) :
    connect inst pc = .ok (inst, client) := by
  unfold connect
  simp only [hpool, hpc]

end ClaimSupport

/-- C4 counterexample: two constructions in one process with the very same
datasource configuration produce two distinct pools (allocation numbers 0
and 1), so the pool is not created at most once per process per
configuration. -/
theorem pool_per_config_counterexample :
    (mkSqlServerIntegration { allocated := 0 } cfg0).1.config =
      (mkSqlServerIntegration (mkSqlServerIntegration { allocated := 0 } cfg0).2 cfg0).1.config ∧
    (mkSqlServerIntegration { allocated := 0 } cfg0).1.pool ≠
      (mkSqlServerIntegration (mkSqlServerIntegration { allocated := 0 } cfg0).2 cfg0).1.pool ∧
    (mkSqlServerIntegration (mkSqlServerIntegration { allocated := 0 } cfg0).2 cfg0).2.allocated = 2 := by
  refine ⟨rfl, ?_, rfl⟩
  decide

/-- C4 (amended): the pool is per-instance: every construction allocates
exactly one new ConnectionPool and stores it on the instance (the static
guard reads an instance property that is always undefined at that point),
and connect never creates a pool — it returns the instance unchanged and
reuses its stored pool on every call. -/
theorem pool_per_instance (st : ProcState) (config : MSSQLConfig) :
    (mkSqlServerIntegration st config).1.pool =
      some { poolId := st.allocated, cfg := mkClientCfg config } ∧
    (mkSqlServerIntegration st config).2.allocated = st.allocated + 1 ∧
    (∀ (inst : Instance) (pc : Pool → Except JSError Client)
      (r : Instance × Client), connect inst pc = .ok r → r.1 = inst) := by
  refine ⟨rfl, rfl, ?_⟩
  intro inst pc r h
  unfold connect at h
  split at h
  · exact absurd h (by simp)
  · split at h
    · simp only [Except.ok.injEq] at h
      rw [← h]
    · exact absurd h (by simp)

/-- C4 witness: the concrete first construction stores pool number 0, and
a successful connect on it returns the instance unchanged. -/
theorem pool_per_instance_witness :
    (mkSqlServerIntegration { allocated := 0 } cfg0).1.pool =
      some { poolId := 0, cfg := mkClientCfg cfg0 } ∧
    ((inst0, clientOkEmpty) : Instance × Client).1 = inst0 := by
  refine ⟨(pool_per_instance { allocated := 0 } cfg0).1, ?_⟩
  exact (pool_per_instance { allocated := 0 } cfg0).2.2 inst0 pcOk
    (inst0, clientOkEmpty) (by rfl)

/-- C5: for a CREATE operation internalQuery appends the identifier fetch
SELECT SCOPE_IDENTITY() AS id as a second statement executed in the same
request; every non-CREATE operation value sends the SQL text unchanged. -/
theorem internalQuery_create_appends (client : Client) (q : SqlQuery) :
    internalQuery client q (some Operation.CREATE) =
      wrapRun client (q.sql ++ "; SELECT SCOPE_IDENTITY() AS id;") (requestInputs q) ∧
    (∀ operation : Option String, operation ≠ some Operation.CREATE →
      internalQuery client q operation = wrapRun client q.sql (requestInputs q)) := by
  constructor
  · unfold internalQuery mssqlRequestSql
    rw [if_pos rfl]
  · intro op hop
    unfold internalQuery mssqlRequestSql
    rw [if_neg hop]

/-- C5 witness: a concrete non-CREATE execution sends the text unchanged. -/
theorem internalQuery_create_appends_witness :
    internalQuery clientOkEmpty { sql := "select 1", bindings := none } none =
      wrapRun clientOkEmpty "select 1"
        (requestInputs { sql := "select 1", bindings := none }) :=
  (internalQuery_create_appends clientOkEmpty
    { sql := "select 1", bindings := none }).2 none (by decide)

/-- C2: any value thrown by the driver during a CRUD execution (read,
create, update, delete, query) is wrapped into the single plain Error kind
whose message is String(err), so it carries the original driver message
and is never a dialect-specific exception type. -/
theorem crud_wraps_driver_error (inst : Instance) (pl : Pool)
    (pc : Pool → Except JSError Client) (client : Client) (e : JSError)
    (hpool : inst.pool = some pl) (hpc : pc pl = .ok client) :
    (∀ q : SqlQuery, client.run q.sql (requestInputs q) = .error e →
      SqlServerIntegration.read inst pc (QueryInput.qInput q) = .error (JSError.error e.toStringJS) ∧
      SqlServerIntegration.create inst pc (QueryInput.qInput q) = .error (JSError.error e.toStringJS) ∧
      SqlServerIntegration.update inst pc (QueryInput.qInput q) = .error (JSError.error e.toStringJS) ∧
      SqlServerIntegration.delete inst pc (QueryInput.qInput q) = .error (JSError.error e.toStringJS)) ∧
    (∀ json : QueryJson,
      client.run (mssqlRequestSql (some (opOf json)) (renderQuery json))
          (requestInputs (renderQuery json)) = .error e →
      SqlServerIntegration.query inst pc json = .error (JSError.error e.toStringJS)) ∧
    (∀ name msg, JSError.error e.toStringJS ≠ JSError.driverError name msg) ∧
    (∃ p, e.toStringJS = p ++ e.message) := by
  have hcon := connect_ok inst pl pc client hpool hpc
  refine ⟨?_, ?_, ?_, ?_⟩
  · intro q hq
    have hiq : internalQuery client (getSqlQuery (QueryInput.qInput q)) none =
        .error (JSError.error e.toStringJS) := by
      show wrapRun client q.sql (requestInputs q) = _
      unfold wrapRun
      simp only [hq]
    refine ⟨?_, ?_, ?_, ?_⟩
    · unfold SqlServerIntegration.read
      simp only [hcon, hiq]
    · unfold SqlServerIntegration.create
      simp only [hcon, hiq]
    · unfold SqlServerIntegration.update
      simp only [hcon, hiq]
    · unfold SqlServerIntegration.delete
      simp only [hcon, hiq]
  · intro json hj
    have hiq : internalQuery client (renderQuery json) (some (opOf json)) =
        .error (JSError.error e.toStringJS) := by
      unfold internalQuery wrapRun
      simp only [hj]
    unfold SqlServerIntegration.query queryWithReturning
    simp only [hcon, hiq]
  · intro name msg h
    exact JSError.noConfusion h
  · cases e with
    | error m => exact ⟨"Error: ", rfl⟩
    | driverError name m => exact ⟨name ++ ": ", by simp [JSError.toStringJS, JSError.message, String.append_assoc]⟩
    | typeError m => exact ⟨"TypeError: ", rfl⟩
    | stringValue s => exact ⟨"", by simp [JSError.toStringJS, JSError.message]⟩

/-- Client whose every request throws a dialect-specific driver error. -/
def clientBoom : Client :=
  { run := fun _ _ => .error (JSError.driverError "RequestError" "Invalid object name") }

/-- Pool connector handing out clientBoom. -/
def pcBoom : Pool → Except JSError Client := fun _ => .ok clientBoom

/-- C2 witness: a concrete read over a throwing driver yields the wrapped
plain Error carrying the driver message. -/
theorem crud_wraps_driver_error_witness :
    SqlServerIntegration.read inst0 pcBoom (QueryInput.qInput { sql := "select 1", bindings := none }) =
      .error (JSError.error "RequestError: Invalid object name") :=
  ((crud_wraps_driver_error inst0 pool0 pcBoom clientBoom
      (JSError.driverError "RequestError" "Invalid object name") rfl rfl).1
    { sql := "select 1", bindings := none } rfl).1

/-- C3 (amended): the success marker keyed by the operation name is
synthesized exactly when the driver result has no recordset; a present
recordset — the empty one included — is passed through unchanged, so an
empty recordset reaches the caller as an empty result. -/
theorem crud_result_normalization (inst : Instance) (pl : Pool)
    (pc : Pool → Except JSError Client) (client : Client)
    (hpool : inst.pool = some pl) (hpc : pc pl = .ok client) :
    (∀ q : SqlQuery, client.run q.sql (requestInputs q) = .ok { recordset := none } →
      SqlServerIntegration.create inst pc (QueryInput.qInput q) = .ok [createdMarker] ∧
      SqlServerIntegration.update inst pc (QueryInput.qInput q) = .ok [updatedMarker] ∧
      SqlServerIntegration.delete inst pc (QueryInput.qInput q) = .ok [deletedMarker]) ∧
    (∀ (q : SqlQuery) (rs : List Row),
      client.run q.sql (requestInputs q) = .ok { recordset := some rs } →
      SqlServerIntegration.create inst pc (QueryInput.qInput q) = .ok rs ∧
      SqlServerIntegration.update inst pc (QueryInput.qInput q) = .ok rs ∧
      SqlServerIntegration.delete inst pc (QueryInput.qInput q) = .ok rs) ∧
    (∀ json : QueryJson,
      client.run (mssqlRequestSql (some (opOf json)) (renderQuery json))
          (requestInputs (renderQuery json)) = .ok { recordset := none } →
      SqlServerIntegration.query inst pc json = .ok [[(opOf json, JSVal.boolean true)]]) ∧
    (∀ (json : QueryJson) (rs : List Row),
      client.run (mssqlRequestSql (some (opOf json)) (renderQuery json))
          (requestInputs (renderQuery json)) = .ok { recordset := some rs } →
      SqlServerIntegration.query inst pc json = .ok rs) := by
  have hcon := connect_ok inst pl pc client hpool hpc
  refine ⟨?_, ?_, ?_, ?_⟩
  · intro q hq
    have hiq : internalQuery client (getSqlQuery (QueryInput.qInput q)) none =
        .ok { recordset := none } := by
      show wrapRun client q.sql (requestInputs q) = _
      unfold wrapRun
      simp only [hq]
    refine ⟨?_, ?_, ?_⟩
    · unfold SqlServerIntegration.create
      simp only [hcon, hiq, Option.getD_none]
    · unfold SqlServerIntegration.update
      simp only [hcon, hiq, Option.getD_none]
    · unfold SqlServerIntegration.delete
      simp only [hcon, hiq, Option.getD_none]
  · intro q rs hq
    have hiq : internalQuery client (getSqlQuery (QueryInput.qInput q)) none =
        .ok { recordset := some rs } := by
      show wrapRun client q.sql (requestInputs q) = _
      unfold wrapRun
      simp only [hq]
    refine ⟨?_, ?_, ?_⟩
    · unfold SqlServerIntegration.create
      simp only [hcon, hiq, Option.getD_some]
    · unfold SqlServerIntegration.update
      simp only [hcon, hiq, Option.getD_some]
    · unfold SqlServerIntegration.delete
      simp only [hcon, hiq, Option.getD_some]
  · intro json hj
    have hiq : internalQuery client (renderQuery json) (some (opOf json)) =
        .ok { recordset := none } := by
      unfold internalQuery wrapRun
      simp only [hj]
    unfold SqlServerIntegration.query queryWithReturning
    simp only [hcon, hiq, Option.getD_none]
  · intro json rs hj
    have hiq : internalQuery client (renderQuery json) (some (opOf json)) =
        .ok { recordset := some rs } := by
      unfold internalQuery wrapRun
      simp only [hj]
    unfold SqlServerIntegration.query queryWithReturning
    simp only [hcon, hiq, Option.getD_some]

/-- C3 counterexample: the driver returns a present but empty recordset —
no row data — yet create passes the empty array through unchanged, so the
caller receives an empty result rather than the created marker and the
result is not non-empty. -/
theorem create_empty_result_counterexample :
    SqlServerIntegration.create inst0 pcOk
      (QueryInput.strInput "insert into t (a) values (1)") = .ok ([] : List Row) := by
  rfl

/-- Client whose requests succeed without any recordset, as the driver
behaves for an INSERT without result set. -/
def clientNoRecordset : Client := { run := fun _ _ => .ok { recordset := none } }

/-- Pool connector handing out clientNoRecordset. -/
def pcNoRecordset : Pool → Except JSError Client := fun _ => .ok clientNoRecordset

/-- C3 witness: a concrete create with no recordset at all yields the
created marker, and one with a returned row passes it through. -/
theorem crud_result_normalization_witness :
    SqlServerIntegration.create inst0 pcNoRecordset
      (QueryInput.qInput { sql := "insert into t (a) values (1)", bindings := none }) =
      .ok [createdMarker] :=
  ((crud_result_normalization inst0 pool0 pcNoRecordset clientNoRecordset rfl rfl).1
    { sql := "insert into t (a) values (1)", bindings := none } rfl).1

/-- Client for which the table list succeeds with two tables but the
column-definition fetch of the first table throws. -/
def clientC1 : Client :=
  { run := fun sql _ =>
      if sql = TABLES_SQL then
        .ok { recordset := some [[("TABLE_NAME", JSVal.str "a")],
                                 [("TABLE_NAME", JSVal.str "b")]] }
      else if sql = getDefinitionSQL "a" then
        .error (JSError.driverError "RequestError" "boom")
      else .ok { recordset := some [] } }

/-- C1 counterexample: two upstream tables with exactly one failing table;
buildSchema aborts with the wrapped error instead of producing one
successful table and one error entry for the failing table. -/
theorem buildSchema_partial_failure_counterexample :
    buildSchema clientC1 "ds" [] = .error (JSError.error "RequestError: boom") := by
  rfl

/-- C1 (amended): buildSchema has no partial-failure isolation: a thrown
per-table metadata fetch aborts the introspection loop with that error
(remaining tables are not visited and no error entry is recorded), and a
successful buildSchema run requires every remaining upstream table to have
introspected successfully. -/
theorem buildSchema_no_partial_failure_isolation (client : Client) (dsId : String) :
    (∀ (v : JSVal) (rest : List JSVal) (acc : List (String × Table)) (e : JSError),
      introspectTable client dsId v.toDisplayString = .error e →
      freshTablesLoop client dsId (v :: rest) acc = .error e) ∧
    (∀ (entities : List (String × Table)) (res : SchemaSyncResult),
      buildSchema client dsId entities = .ok res →
      ∀ records : List Row,
        client.run TABLES_SQL [] = .ok { recordset := some records } →
        ∀ v ∈ tableNamesFrom records, ∃ t,
          introspectTable client dsId v.toDisplayString = .ok t) := by
  constructor
  · intro v rest acc e hv
    unfold freshTablesLoop
    simp only [hv]
  · intro entities res hres records hrec v hv
    have hiq : internalQuery client (getSqlQuery (QueryInput.strInput TABLES_SQL)) none =
        .ok { recordset := some records } := by
      show wrapRun client TABLES_SQL [] = _
      unfold wrapRun
      simp only [hrec]
    have hrun : runSQL client TABLES_SQL = .ok (some records) := by
      unfold runSQL
      simp only [hiq]
    unfold buildSchema at hres
    cases hf : freshTables client dsId with
    | error e =>
      rw [hf] at hres
      exact absurd hres (by simp [Except.map])
    | ok ts =>
      unfold freshTables at hf
      rw [hrun] at hf
      exact freshTablesLoop_all_ok client dsId _ _ _ hf v hv

/-- C1 witness: over the concrete client the loop on the two tables aborts
at the first with the wrapped error, never visiting the second. -/
theorem buildSchema_no_partial_failure_isolation_witness :
    freshTablesLoop clientC1 "ds" [JSVal.str "a", JSVal.str "b"] [] =
      .error (JSError.error "RequestError: boom") :=
  (buildSchema_no_partial_failure_isolation clientC1 "ds").1
    (JSVal.str "a") [JSVal.str "b"] [] (JSError.error "RequestError: boom") (by rfl)

/-- Client whose table-list query yields a result without recordset, as
the driver behaves when the metadata query returns no result set. -/
def clientNoList : Client := { run := fun _ _ => .ok { recordset := none } }

/-- C6 (amended): when the table-list metadata query yields no usable
array, buildSchema fails with the fatal table-list error, for every client
behaviour on the other queries and every prior entity set — no table
introspection proceeds. -/
theorem buildSchema_fatal_on_unusable_table_list (client : Client)
    (dsId : String) (entities : List (String × Table))
    (h : client.run TABLES_SQL [] = .ok { recordset := none }) :
    buildSchema client dsId entities =
      .error (JSError.stringValue "Unable to get list of tables in database") := by
  have hiq : internalQuery client (getSqlQuery (QueryInput.strInput TABLES_SQL)) none =
      .ok { recordset := none } := by
    show wrapRun client TABLES_SQL [] = _
    unfold wrapRun
    simp only [h]
  have hrun : runSQL client TABLES_SQL = .ok none := by
    unfold runSQL
    simp only [hiq]
  unfold buildSchema freshTables
  rw [hrun]
  rfl

/-- C6 witness: the fatal error on a concrete client whose metadata query
produces no recordset. -/
theorem buildSchema_fatal_on_unusable_table_list_witness :
    buildSchema clientNoList "ds" [] =
      .error (JSError.stringValue "Unable to get list of tables in database") :=
  buildSchema_fatal_on_unusable_table_list clientNoList "ds" [] rfl

/-- Client whose table-list query succeeds with one table while every
other metadata query throws. -/
def clientC6 : Client :=
  { run := fun sql _ =>
      if sql = TABLES_SQL then
        .ok { recordset := some [[("TABLE_NAME", JSVal.str "t")]] }
      else .error (JSError.driverError "RequestError" "timeout") }

/-- C6 counterexample: the table list is fetched successfully, yet
buildSchema is still fatal because a per-table metadata fetch throws, so
fatality is not limited to an unavailable table list. -/
theorem buildSchema_fatal_counterexample :
    clientC6.run TABLES_SQL [] =
      .ok { recordset := some [[("TABLE_NAME", JSVal.str "t")]] } ∧
    buildSchema clientC6 "ds" [] = .error (JSError.error "RequestError: timeout") := by
  exact ⟨rfl, rfl⟩

/-- C7: the id of every freshly introspected table is the deterministic
function buildExternalTableId of the datasource id and the table name
alone; two buildSchema runs over the same datasource id therefore assign
identical ids to equally named tables, whatever else either client
returns (order of results, other tables, renames of unrelated tables),
and finalisation preserves the id of every fresh table. -/
theorem table_id_deterministic (c1 c2 : Client) (dsId : String)
    (ts1 ts2 : List (String × Table)) (n : String) (t1 t2 : Table)
    (h1 : freshTables c1 dsId = .ok ts1) (h2 : freshTables c2 dsId = .ok ts2)
    (m1 : (n, t1) ∈ ts1) (m2 : (n, t2) ∈ ts2) :
    t1._id = buildExternalTableId dsId n ∧ t1._id = t2._id ∧
    (∀ entities, ∃ t3, (n, t3) ∈ (finaliseExternalTables ts1 entities).tables ∧
      t3._id = t1._id) := by
  have key : ∀ (c : Client) (ts : List (String × Table)),
      freshTables c dsId = .ok ts →
      ∀ p ∈ ts, (p : String × Table).2._id = buildExternalTableId dsId p.1 := by
    intro c ts h
    refine freshTables_forall c dsId
      (fun p => p.2._id = buildExternalTableId dsId p.1) ?_ ts h
    intro v _ t ht
    exact (introspectTable_ok c dsId _ t ht).1
  have k1 := key c1 ts1 h1 (n, t1) m1
  have k2 := key c2 ts2 h2 (n, t2) m2
  refine ⟨k1, by rw [k1, k2], ?_⟩
  intro entities
  unfold finaliseExternalTables
  cases hfind : entities.find? (fun q => q.2._id == t1._id) with
  | some q =>
    refine ⟨{ t1 with views := q.2.views }, ?_, rfl⟩
    apply List.mem_append_left
    refine List.mem_map.mpr ⟨(n, t1), m1, ?_⟩
    simp only [hfind]
  | none =>
    refine ⟨t1, ?_, rfl⟩
    apply List.mem_append_left
    refine List.mem_map.mpr ⟨(n, t1), m1, ?_⟩
    simp only [hfind]

/-- Client exposing exactly one upstream table named orders with no
columns and no constraints. -/
def clientOrders : Client :=
  { run := fun sql _ =>
      if sql = TABLES_SQL then
        .ok { recordset := some [[("TABLE_NAME", JSVal.str "orders")]] }
      else .ok { recordset := some [] } }

/-- Table entity produced for the orders table of clientOrders. -/
def tOrders : Table :=
  { _id := "ds__orders", primary := [], name := "orders", schema := [],
    views := none }

/-- C7 witness: on a concrete run the orders table receives exactly the id
derived from the datasource id and its name. -/
theorem table_id_deterministic_witness :
    tOrders._id = buildExternalTableId "ds" "orders" ∧ tOrders._id = tOrders._id := by
  have h := table_id_deterministic clientOrders clientOrders "ds"
    [("orders", tOrders)] [("orders", tOrders)] "orders" tOrders tOrders
    (by rfl) (by rfl) (List.mem_singleton.mpr rfl) (List.mem_singleton.mpr rfl)
  exact ⟨h.1, h.2.1⟩

/-- C9: no denylisted engine-internal master table name ever appears as a
key of the freshly introspected table set, whatever the metadata catalog
returns for the table list. -/
theorem master_tables_excluded (client : Client) (dsId : String)
    (ts : List (String × Table)) (h : freshTables client dsId = .ok ts) :
    ∀ p ∈ ts, (p : String × Table).1 ∉ MASTER_TABLES := by
  refine freshTables_forall client dsId (fun p => p.1 ∉ MASTER_TABLES) ?_ ts h
  intro v hk t _
  exact keepTable_toDisplayString v hk

/-- Client whose catalog lists a denylisted master table next to an
ordinary one. -/
def clientWithMaster : Client :=
  { run := fun sql _ =>
      if sql = TABLES_SQL then
        .ok { recordset := some [[("TABLE_NAME", JSVal.str "spt_monitor")],
                                 [("TABLE_NAME", JSVal.str "orders")]] }
      else .ok { recordset := some [] } }

/-- C9 witness: on the concrete client listing spt_monitor and orders,
the fresh set holds only orders, whose name is not denylisted. -/
theorem master_tables_excluded_witness :
    ("orders" : String) ∉ MASTER_TABLES :=
  master_tables_excluded clientWithMaster "ds" [("orders", tOrders)] (by rfl)
    ("orders", tOrders) (List.mem_singleton.mpr rfl)


/-- C8: caller values reach the engine only as positional bound
parameters: the rendered SQL text is a function of the query shape alone
(operation, table, assigned column names, filter column names) and never
of the filter or field values; for a read the ordered bindings are exactly
the filter values and internalQuery binds them as the named inputs p0,
p1, ... in binding order, passing the text to the driver unchanged. -/
theorem bindings_positional (json : QueryJson) :
    (∀ json2 : QueryJson, json.operation = json2.operation →
      json.table = json2.table →
      json.fields.map Prod.fst = json2.fields.map Prod.fst →
      json.filterCols = json2.filterCols →
      (renderQuery json).sql = (renderQuery json2).sql) ∧
    (json.operation = "READ" →
      (renderQuery json).bindings = some json.filterVals ∧
      requestInputs (renderQuery json) =
        json.filterVals.enum.map (fun p => ("p" ++ toString p.1, p.2))) ∧
    (∀ client : Client,
      internalQuery client (renderQuery json) none =
        wrapRun client (renderQuery json).sql (requestInputs (renderQuery json))) := by
  refine ⟨?_, ?_, ?_⟩
  · intro json2 hop htab hfld hfil
    have hlen : json.fields.length = json2.fields.length := by
      have := congrArg List.length hfld
      simpa using this
    unfold renderQuery
    rw [hop, htab, hfld, hfil, hlen]
    split_ifs <;> rfl
  · intro hop
    have hrq : renderQuery json =
        { sql := "select * from [" ++ json.table ++ "]" ++
            whereClause json.filterCols 0
          bindings := some json.filterVals } := by
      unfold renderQuery
      rw [hop]
      rw [if_neg (by decide), if_neg (by decide), if_neg (by decide)]
    rw [hrq]
    exact ⟨rfl, rfl⟩
  · intro client
    rfl

/-- Query description carrying a filter value full of SQL metacharacters. -/
def jsonInject : QueryJson :=
  { operation := "READ", table := "orders", fields := [],
    filterCols := ["name"],
    filterVals := [JSVal.str "x\x27; DROP TABLE users; --"] }

/-- The same query description with a benign filter value. -/
def jsonBenign : QueryJson :=
  { operation := "READ", table := "orders", fields := [],
    filterCols := ["name"], filterVals := [JSVal.str "alice"] }

/-- C8 witness: the hostile and the benign filter value render the
identical SQL text, and the hostile value travels only as the bound
parameter p0. -/
theorem bindings_positional_witness :
    (renderQuery jsonInject).sql = (renderQuery jsonBenign).sql ∧
    requestInputs (renderQuery jsonInject) =
      [("p0", JSVal.str "x\x27; DROP TABLE users; --")] := by
  have h := bindings_positional jsonInject
  exact ⟨h.1 jsonBenign rfl rfl rfl rfl, ((h.2.1 rfl).2).trans (by decide)⟩

/-- C10 (amended): rows whose COLUMN_NAME is not a string are silently
skipped and never cause a failure: the schema keys are exactly the
string-valued column names of the definition rows, every entry key equals
its own name field, and the autocolumn flag is true exactly when the name
is non-empty and appears among the computed or identity column names (the
double-bang truthiness makes a column named by the empty string never an
autocolumn even when listed). -/
theorem schema_columns_characterization (autoColumns : List JSVal)
    (definition : List Row) :
    (∀ n : String,
      n ∈ (buildTableSchema autoColumns definition []).map Prod.fst ↔
        ∃ d ∈ definition, getField d "COLUMN_NAME" = JSVal.str n) ∧
    (∀ p ∈ buildTableSchema autoColumns definition [],
      (p : String × Column).2.name = p.1 ∧
      (p.2.autocolumn = true ↔ (p.1 ≠ "" ∧ JSVal.str p.1 ∈ autoColumns))) := by
  constructor
  · intro n
    rw [buildTableSchema_keys]
    simp
  · refine buildTableSchema_forall autoColumns ?_ definition [] (by simp)
    intro name dt
    refine ⟨rfl, ?_⟩
    rw [show (columnFor autoColumns name dt).autocolumn =
      autocolumnFlag autoColumns name from rfl]
    exact autocolumnFlag_iff autoColumns name

/-- Definition row describing a column named by the empty string. -/
def defRowEmptyName : Row :=
  [("COLUMN_NAME", JSVal.str ""), ("DATA_TYPE", JSVal.str "int")]

/-- Auto-column row marking that same empty-named column as identity. -/
def autoRowEmptyName : Row :=
  [("IS_COMPUTED", JSVal.num 0), ("IS_IDENTITY", JSVal.num 1),
   ("COLUMN_NAME", JSVal.str "")]

/-- Client describing one table t whose single column is named by the
empty string and is an identity column. -/
def clientC10 : Client :=
  { run := fun sql _ =>
      if sql = getDefinitionSQL "t" then .ok { recordset := some [defRowEmptyName] }
      else if sql = getAutoColumnsSQL "t" then .ok { recordset := some [autoRowEmptyName] }
      else .ok { recordset := some [] } }

set_option maxRecDepth 4096 in
/-- C10 counterexample: the empty-named column appears among the computed
and identity columns, yet its autocolumn flag is built as false, so the
flag is not true exactly when the name appears among those columns. -/
theorem autocolumn_empty_name_counterexample :
    introspectTable clientC10 "ds" "t" =
      .ok { _id := "ds__t", primary := [], name := "t",
            schema := [("", { autocolumn := false, name := "", type := "number" })],
            views := none } ∧
    autoColumnsOf [autoRowEmptyName] = [JSVal.str ""] := by
  exact ⟨rfl, rfl⟩

/-- C10 witness: over concrete rows whose first column name is the number
zero and second is the string id, the schema maps exactly id, keyed by its
own name, with a truthful autocolumn flag. -/
theorem schema_columns_characterization_witness :
    (("id" : String) ∈
      (buildTableSchema [JSVal.str "id"]
        [[("COLUMN_NAME", JSVal.num 0)], [("COLUMN_NAME", JSVal.str "id")]] []).map
        Prod.fst) ∧
    ((("id" : String), ({ autocolumn := true, name := "id", type := "string" } : Column)).2.name = "id") := by
  have h := schema_columns_characterization [JSVal.str "id"]
    [[("COLUMN_NAME", JSVal.num 0)], [("COLUMN_NAME", JSVal.str "id")]]
  refine ⟨?_, ?_⟩
  · exact (h.1 "id").mpr ⟨[("COLUMN_NAME", JSVal.str "id")], by decide, by decide⟩
  · exact (h.2 (("id" : String), ({ autocolumn := true, name := "id", type := "string" } : Column)) (by decide)).1
